import Mathlib

/-!
Verification of the transaction-dashboard backend (`src/server.js`).

The file shallowly embeds the six Express route handlers over an explicit
store state (`List Transaction` standing for the MongoDB collection of the
`Transaction` model).  Each handler is a pure function from its query
parameters and the store to a response value; MongoDB query/aggregation
primitives (`find`/`skip`/`limit`, `countDocuments`, `$match`, `$group`,
`$facet`) are modelled as list operations with MongoDB's documented
matching semantics (an equality or range condition on a missing field does
not match; `$sum` over a missing field contributes 0).

Conventions of the embedding:
  * JavaScript numbers are modelled as `ℚ` (the program performs no
    floating-point-specific operation on them), timestamps as `Int`
    milliseconds, and the host clock / time zone is fixed to UTC, so
    `new Date(y, m, 1).getTime()` is `86400000 *` the proleptic-Gregorian
    day number.  The ECMAScript two-digit-year rule of the
    `new Date(year, month, day)` constructor (year values `0..99` mean
    `1900..1999`) and month-index overflow into following years are kept.
  * `parseInt(s, 10)` and `parseFloat(s)` are modelled on the fragment the
    handlers can meet: optional leading spaces/tabs/newlines, an optional
    sign, then a longest digit (resp. digit/decimal-point) prefix; `NaN`
    results are `none`.  The exponent form (`1e3`) and the `Infinity`
    literal are outside the fragment; for `parseFloat` the model already
    folds in the `isFinite` guard applied at its one use site.
  * The `$regex` operator with the `i` option is modelled for patterns
    built from literal characters and the `.` wildcard (the fragment the
    theorems below use); matching is unanchored, comparing characters
    case-insensitively.
  * `new Date(dateString)` parsing of upstream date strings is host-library
    behaviour; the upstream date field is therefore embedded as its parse
    result (`DateInput.valid t` for a string parsing to timestamp `t`,
    `DateInput.invalid` otherwise), which is exactly the distinction
    `parseDate` in `server.js` observes via `isNaN(date.getTime())`.
-/

namespace Server

/-! ## Calendar arithmetic (`new Date(year, monthIndex, 1)`) -/

/-- Milliseconds per day. -/
def msPerDay : Int := 86400000

/-- Day number of the proleptic-Gregorian date `y-m-d` (with `1 ≤ m ≤ 12`)
counted from 1970-01-01, following the standard civil-from-days
construction used by ECMAScript `MakeDay`. -/
def daysFromCivil (y m d : Int) : Int :=
  let y2 : Int := if m ≤ 2 then y - 1 else y
  let era : Int := Int.fdiv y2 400
  let yoe : Int := y2 - era * 400
  let mp : Int := Int.emod (m + 9) 12
  let doy : Int := Int.fdiv (153 * mp + 2) 5 + d - 1
  let doe : Int := yoe * 365 + Int.fdiv yoe 4 - Int.fdiv yoe 100 + doy
  era * 146097 + doe - 719468

/-- ECMAScript two-digit-year rule of the `Date(year, month, day)`
constructor: year values `0..99` denote `1900..1999`. -/
def yearAdj (y : Int) : Int := if 0 ≤ y ∧ y ≤ 99 then 1900 + y else y

/-- `new Date(y, mIdx, 1).getTime()` (UTC model): applies the
two-digit-year rule, lets the month index overflow into adjacent years,
and returns the millisecond timestamp of that month's first instant. -/
def jsNewDateYM (y mIdx : Int) : Int :=
  let ya : Int := yearAdj y
  msPerDay * daysFromCivil (ya + Int.fdiv mIdx 12) (Int.emod mIdx 12 + 1) 1

/-- Specification-side notion used by the claims: the first instant of
calendar month `m` of year `y` (no two-digit-year rule). -/
def firstInstant (y m : Int) : Int := msPerDay * daysFromCivil y m 1

/-! ## JavaScript numeric parsing -/

/-- Whitespace skipped by `parseInt` / `parseFloat`. -/
def jsWs (c : Char) : Bool := c == ' ' || c == '\t' || c == '\n' || c == '\r'

/-- Value of a decimal digit string. -/
def digitsToNat (l : List Char) : Nat :=
  l.foldl (fun a c => 10 * a + (c.toNat - 48)) 0

/-- Longest digit prefix as a natural number; `none` when there is no
digit (the `NaN` case of `parseInt`). -/
def parseIntCore (cs : List Char) : Option Nat :=
  let ds := cs.takeWhile Char.isDigit
  if ds.isEmpty then none else some (digitsToNat ds)

/-- `parseInt(s, 10)`: skip whitespace, optional sign, longest digit
prefix; `none` models `NaN`. -/
def parseIntJs (s : String) : Option Int :=
  match s.data.dropWhile jsWs with
  | '-' :: rest => (parseIntCore rest).map (fun n => -(n : Int))
  | '+' :: rest => (parseIntCore rest).map (fun n => (n : Int))
  | rest => (parseIntCore rest).map (fun n => (n : Int))

/-- Digit/fraction prefix of `parseFloat` (no exponent): `none` when no
digit occurs on either side of the optional decimal point. -/
def parseFloatCore (cs : List Char) : Option ℚ :=
  let ds := cs.takeWhile Char.isDigit
  let rest := cs.dropWhile Char.isDigit
  let fs : List Char := match rest with
    | '.' :: r => r.takeWhile Char.isDigit
    | _ => []
  if ds.isEmpty && fs.isEmpty then none
  else some ((digitsToNat ds : ℚ) + (digitsToNat fs : ℚ) / (10 : ℚ) ^ fs.length)

/-- `parseFloat(s)` combined with the `isFinite` guard of the
`/transactions` handler: `none` models `NaN` (and the out-of-fragment
`Infinity`). -/
def parseFloatFinite (s : String) : Option ℚ :=
  match s.data.dropWhile jsWs with
  | '-' :: rest => (parseFloatCore rest).map (fun q => -q)
  | '+' :: rest => parseFloatCore rest
  | rest => parseFloatCore rest

/-- `parseInt` applied to a possibly-absent query parameter
(`parseInt(undefined, 10)` is `NaN`). -/
def parseIntOpt (v : Option String) : Option Int := v.bind parseIntJs

/-- `const { p = dflt } = req.query` followed by `parseInt(p, 10)`:
an absent parameter takes the (numeric) default. -/
def optParamInt (v : Option String) (dflt : Int) : Option Int :=
  match v with
  | none => some dflt
  | some s => parseIntJs s

/-! ## The data model -/

/-- A stored document of the `Transaction` model.  Fields the mongoose
schema declares but the source may omit are `Option`s; `title`,
`description`, `category`, `price` are always set by the ingest mapping.
`sold` is not part of the schema's field mapping but is probed by the
`/statistics` aggregation, so a stored document may or may not carry it. -/
structure Transaction where
  transactionId : Option String
  productId : Option String
  userId : Option String
  amount : Option ℚ
  date : Option Int
  title : String
  description : String
  price : ℚ
  category : String
  sold : Option Bool
deriving DecidableEq

/-- Parse result of the upstream `date` string under `new Date(_)`. -/
inductive DateInput where
  | valid (t : Int)
  | invalid
deriving DecidableEq

/-- `parseDate` of `server.js`: `null` (here `none`) for invalid dates,
the timestamp otherwise. -/
def parseDate : DateInput → Option Int
  | .valid t => some t
  | .invalid => none

/-- A raw element of the upstream JSON array (snake_case source fields,
all optional except the date, which is carried as its parse result). -/
structure RawItem where
  transaction_id : Option String
  product_id : Option String
  user_id : Option String
  amount : Option ℚ
  date : DateInput
  title : Option String
  description : Option String
  price : Option ℚ
  category : Option String
deriving DecidableEq

/-- The upstream response body: a JSON array of items, or anything else. -/
inductive UpstreamPayload where
  | array (items : List RawItem)
  | notArray

/-- The field mapping of the `/initialize` handler (defaults via `||`,
date via `parseDate`; no `sold` field is produced). -/
def normalizeItem (i : RawItem) : Transaction :=
  { transactionId := i.transaction_id
    productId := i.product_id
    userId := i.user_id
    amount := i.amount
    date := parseDate i.date
    title := i.title.getD ""
    description := i.description.getD ""
    price := i.price.getD 0
    category := i.category.getD ""
    sold := none }

/-- Response of `/initialize`. -/
inductive InitResponse where
  | badRequest
  | ok
deriving DecidableEq

/-- HTTP status of an `/initialize` response. -/
def InitResponse.status : InitResponse → Nat
  | .badRequest => 400
  | .ok => 200

/-- The `/initialize` handler: on a non-array payload respond 400 and
leave the store alone; otherwise delete everything, normalize, drop
records whose parsed date is `null`, and bulk-insert the survivors. -/
def initializeHandler (payload : UpstreamPayload) (store : List Transaction) :
    InitResponse × List Transaction :=
  match payload with
  | .notArray => (.badRequest, store)
  | .array items =>
      (.ok, (items.map normalizeItem).filter (fun t => t.date.isSome))

/-! ## The `$regex` model (literal characters and the `.` wildcard) -/

/-- Case-insensitive character comparison (the `i` regex option). -/
def ciEq (a b : Char) : Bool := a.toLower == b.toLower

/-- Match a pattern against the start of a text: `.` matches any one
character, every other pattern character matches itself up to case. -/
def pMatch : List Char → List Char → Bool
  | [], _ => true
  | _ :: _, [] => false
  | p :: ps, t :: ts => (p == '.' || ciEq p t) && pMatch ps ts

/-- Unanchored regex search: does the pattern match starting at some
position of the text? -/
def rSearch (ps : List Char) : List Char → Bool
  | [] => ps.isEmpty
  | t :: ts => pMatch ps (t :: ts) || rSearch ps ts

/-- MongoDB `{ field: { $regex: pattern, $options: "i" } }` on the
modelled pattern fragment. -/
def jsRegexTestCI (pattern text : String) : Bool :=
  rSearch pattern.data text.data

/-- Match the pattern taken literally against the start of the text
(case-insensitively). -/
def litHere : List Char → List Char → Bool
  | [], _ => true
  | _ :: _, [] => false
  | p :: ps, t :: ts => ciEq p t && litHere ps ts

/-- Literal substring search (case-insensitive). -/
def subSearch (ps : List Char) : List Char → Bool
  | [] => ps.isEmpty
  | t :: ts => litHere ps (t :: ts) || subSearch ps ts

/-- Case-insensitive substring containment, the specification's reading
of the search filter. -/
def containsCI (text pattern : String) : Bool :=
  subSearch pattern.data text.data

/-- The regex metacharacters of the PCRE dialect MongoDB uses.  On
patterns avoiding all of them, `$regex` degenerates to substring
search. -/
def metaChars : List Char :=
  ['.', '^', '$', '*', '+', '?', '(', ')', '[', ']', '\x7b', '\x7d', '|', '\\']

/-- A search string free of regex metacharacters. -/
def regexLiteral (s : String) : Prop := ∀ c ∈ s.data, c ∉ metaChars

instance (s : String) : Decidable (regexLiteral s) := by
  unfold regexLiteral; infer_instance

/-! ## `/transactions` -/

/-- The filter object built by the `/transactions` handler: an `$or` of
two case-insensitive `$regex` clauses on `title` and `description`, plus
an exact `price` clause when the search string `parseFloat`s to a finite
number. -/
def txMatches (search : String) (r : Transaction) : Bool :=
  jsRegexTestCI search r.title || jsRegexTestCI search r.description ||
    (match parseFloatFinite search with
     | some q => decide (r.price = q)
     | none => false)

/-- The specification's reading of the same filter: case-insensitive
substring containment on `title`/`description`, or exact price match. -/
def specSearchMatches (search : String) (r : Transaction) : Bool :=
  containsCI r.title search || containsCI r.description search ||
    (match parseFloatFinite search with
     | some q => decide (r.price = q)
     | none => false)

/-- Success body of `/transactions`. -/
structure TxOutput where
  transactions : List Transaction
  totalCount : Nat
  totalPages : Int
  currentPage : Int
  perPage : Int
deriving DecidableEq

/-- Response of `/transactions`: 400 on invalid pagination parameters,
500 when the awaited store query rejects (the handler's `catch` block),
200 with the query results otherwise. -/
inductive TxResponse where
  | badRequest
  | serverError
  | ok (o : TxOutput)
deriving DecidableEq

/-- HTTP status of a `/transactions` response. -/
def TxResponse.status : TxResponse → Nat
  | .badRequest => 400
  | .serverError => 500
  | .ok _ => 200

/-- MongoDB `cursor.limit(n)`: a positive `n` returns the first `n`
documents, `0` means no limit, and a negative `n` behaves as `|n|` (with
a single batch, which a single response cannot observe). -/
def mongoLimit (n : Int) (l : List Transaction) : List Transaction :=
  if n = 0 then l else l.take n.natAbs

/-- The `/transactions` handler: defaults `page = 1`, `perPage = 10`,
`search = ""`; 400 when `parseInt` yields `NaN` on either pagination
parameter; otherwise one `find().skip((page-1)*perPage).limit(perPage)`
and one `countDocuments` over the same filter, with
`totalPages = Math.ceil(totalCount / perPage)`.  MongoDB rejects a
negative skip value, so for `(page-1)*perPage < 0` the awaited query
throws and the `catch` block answers 500 (`serverError`); `limit` follows
`mongoLimit`.  For `perPage = 0` the JavaScript `totalPages` is the
non-number `Infinity`/`NaN` (serialized as JSON `null`), which the `Int`
field cannot carry; the model leaves `Int.ceil` of Lean's zero-division
convention there and no theorem consults the field at `perPage = 0`. -/
def transactionsHandler (page perPage search : Option String)
    (store : List Transaction) : TxResponse :=
  match optParamInt page 1, optParamInt perPage 10 with
  | some p, some pp =>
      if (p - 1) * pp < 0 then .serverError
      else
        let matched := store.filter (txMatches (search.getD ""))
        .ok
          { transactions := mongoLimit pp (matched.drop ((p - 1) * pp).toNat)
            totalCount := matched.length
            totalPages := Int.ceil ((matched.length : ℚ) / (pp : ℚ))
            currentPage := p
            perPage := pp }
  | _, _ => .badRequest

/-! ## Month-window filtering shared by the aggregation endpoints -/

/-- `{ date: { $gte: s, $lt: e } }`: a record matches when it has a
date (MongoDB range operators do not match missing/null fields against a
`Date` bound) lying in `[s, e)`. -/
def dateIn (s e : Int) (r : Transaction) : Bool :=
  match r.date with
  | some d => decide (s ≤ d) && decide (d < e)
  | none => false

/-- Whether the (already `parseInt`ed) month parameter passes the
`isNaN(m) || m < 1 || m > 12` validation of the three aggregation
endpoints. -/
def monthOk (v : Option String) : Bool :=
  match parseIntOpt v with
  | none => false
  | some m => !(decide (m < 1) || decide (12 < m))

/-! ## `/statistics` -/

/-- Success body of `/statistics`. -/
structure StatsOutput where
  totalSaleAmount : ℚ
  totalSoldItems : Nat
  totalNotSoldItems : Nat
deriving DecidableEq

/-- Response of `/statistics`. -/
inductive StatsResponse where
  | badRequest
  | ok (o : StatsOutput)
deriving DecidableEq

/-- HTTP status of a `/statistics` response. -/
def StatsResponse.status : StatsResponse → Nat
  | .badRequest => 400
  | .ok _ => 200

/-- The `/statistics` handler: validate month and year, build the
`[new Date(y, m-1, 1), new Date(y, m, 1))` window, and compute the three
`$facet` pipelines over the `$match`ed records: `$sum` of `amount`
(missing `amount` contributes 0, the empty group yields 0 through
`?.total || 0`), and `$count` after `$match: {sold: true}` resp.
`$match: {sold: false}` (an equality match on a missing field fails). -/
def statisticsHandler (month year : Option String) (store : List Transaction) :
    StatsResponse :=
  match parseIntOpt month, parseIntOpt year with
  | some m, some y =>
      if m < 1 ∨ 12 < m then .badRequest
      else
        let s := jsNewDateYM y (m - 1)
        let e := jsNewDateYM y m
        let matched := store.filter (dateIn s e)
        .ok
          { totalSaleAmount := (matched.map (fun r => r.amount.getD 0)).sum
            totalSoldItems := (matched.filter (fun r => r.sold == some true)).length
            totalNotSoldItems := (matched.filter (fun r => r.sold == some false)).length }
  | _, _ => .badRequest

/-! ## `/price-range` -/

/-- The ten fixed price bands of the handler; `none` as upper bound
stands for the JavaScript `Infinity` literal (`price ≤ Infinity` holds
for every numeric price). -/
def priceRanges : List (ℚ × Option ℚ) :=
  [(0, some 100), (101, some 200), (201, some 300), (301, some 400),
   (401, some 500), (501, some 600), (601, some 700), (701, some 800),
   (801, some 900), (901, none)]

/-- `price: { $gte: b.1, $lte: b.2 }` with both bounds inclusive. -/
def priceInBand (p : ℚ) (b : ℚ × Option ℚ) : Bool :=
  decide (b.1 ≤ p) &&
    (match b.2 with
     | some hi => decide (p ≤ hi)
     | none => true)

/-- One `{range, count}` entry of the `/price-range` body, the range
rendered by its bounds. -/
structure RangeCount where
  lo : ℚ
  hi : Option ℚ
  count : Nat
deriving DecidableEq

/-- Response of `/price-range`. -/
inductive RangeResponse where
  | badRequest
  | ok (l : List RangeCount)
deriving DecidableEq

/-- HTTP status of a `/price-range` response. -/
def RangeResponse.status : RangeResponse → Nat
  | .badRequest => 400
  | .ok _ => 200

/-- The `/price-range` handler: validate the month, build the month
window of the current calendar year (`new Date().getFullYear()` passed
in as `currentYear`), and issue one `countDocuments` per band over
records in the window whose price lies within the band's inclusive
bounds. -/
def priceRangeHandler (month : Option String) (currentYear : Int)
    (store : List Transaction) : RangeResponse :=
  match parseIntOpt month with
  | some m =>
      if m < 1 ∨ 12 < m then .badRequest
      else
        let s := jsNewDateYM currentYear (m - 1)
        let e := jsNewDateYM currentYear m
        .ok (priceRanges.map (fun b =>
          { lo := b.1
            hi := b.2
            count := (store.filter
              (fun r => dateIn s e r && priceInBand r.price b)).length }))
  | none => .badRequest

/-! ## `/category-stats` -/

/-- The `$group: {_id: "$category", count: {$sum: 1}}` stage: one
`(category, count)` pair per distinct category value of the input (group
order is unspecified in MongoDB; the model uses first occurrence). -/
def categoryCounts (rs : List Transaction) : List (String × Nat) :=
  ((rs.map (fun r => r.category)).dedup).map
    (fun c => (c, (rs.filter (fun r => r.category == c)).length))

/-- Response of `/category-stats`. -/
inductive CatResponse where
  | badRequest
  | ok (l : List (String × Nat))
deriving DecidableEq

/-- HTTP status of a `/category-stats` response. -/
def CatResponse.status : CatResponse → Nat
  | .badRequest => 400
  | .ok _ => 200

/-- The `/category-stats` handler: validate the month, `$match` the
current-year month window, `$group` by category. -/
def categoryStatsHandler (month : Option String) (currentYear : Int)
    (store : List Transaction) : CatResponse :=
  match parseIntOpt month with
  | some m =>
      if m < 1 ∨ 12 < m then .badRequest
      else
        let s := jsNewDateYM currentYear (m - 1)
        let e := jsNewDateYM currentYear m
        .ok (categoryCounts (store.filter (dateIn s e)))
  | none => .badRequest

/-! ## Specification-side month window -/

/-- The claims' reading of the month window: `[first instant of month m
of year y, first instant of the following month)`. -/
def specWindow (y m : Int) : Int × Int :=
  (firstInstant y m,
   if m = 12 then firstInstant (y + 1) 1 else firstInstant y (m + 1))

/-! ## Response extractors and concrete data used by the verdicts -/

/-- Sum of the ten band counts of a `/price-range` response (0 on a 400
response). -/
def rangeSum : RangeResponse → Nat
  | .badRequest => 0
  | .ok l => (l.map RangeCount.count).sum

/-- `totalSaleAmount` of a `/statistics` response (0 on a 400 response). -/
def statsSale : StatsResponse → ℚ
  | .badRequest => 0
  | .ok o => o.totalSaleAmount

/-- A stored record dated at the first instant of May 2024 whose price
100.5 falls in the gap between the bands `[0,100]` and `[101,200]`. -/
def rGap : Transaction :=
  { transactionId := none
    productId := none
    userId := none
    amount := none
    date := some (jsNewDateYM 2024 4)
    title := ""
    description := ""
    price := mkRat 201 2
    category := ""
    sold := none }

/-- A stored record dated at the first instant of January of year 24 of
the proleptic-Gregorian calendar, with amount 5. -/
def rY24 : Transaction :=
  { transactionId := none
    productId := none
    userId := none
    amount := some 5
    date := some (firstInstant 24 1)
    title := ""
    description := ""
    price := 0
    category := ""
    sold := none }

/-- A stored record whose title is `"ab"` (and empty description). -/
def recAB : Transaction :=
  { transactionId := none
    productId := none
    userId := none
    amount := none
    date := some 0
    title := "ab"
    description := ""
    price := 0
    category := ""
    sold := none }

/-- A stored record whose title contains `"AB"`. -/
def recXAB : Transaction :=
  { transactionId := none
    productId := none
    userId := none
    amount := none
    date := some 0
    title := "xABz"
    description := ""
    price := 0
    category := ""
    sold := none }

/-- An upstream item with a parseable date and all optional text fields
present. -/
def w3item1 : RawItem :=
  { transaction_id := some "t1"
    product_id := some "p1"
    user_id := some "u1"
    amount := some 3
    date := .valid 1000
    title := some "A"
    description := some "d"
    price := some 2
    category := some "c" }

/-- An upstream item with an unparseable date and all optional fields
absent. -/
def w3item2 : RawItem :=
  { transaction_id := none
    product_id := none
    user_id := none
    amount := none
    date := .invalid
    title := none
    description := none
    price := none
    category := none }

/-- A two-element upstream payload: one parseable date, one not. -/
def w3items : List RawItem := [w3item1, w3item2]

/-- An upstream item dated at the first instant of January 2024. -/
def w10item : RawItem :=
  { transaction_id := none
    product_id := none
    user_id := none
    amount := some 5
    date := .valid (firstInstant 2024 1)
    title := none
    description := none
    price := none
    category := some "x" }

/-- A store of four records with two distinct categories inside the July
2025 window and one record outside it. -/
def w7store : List Transaction :=
  [{ transactionId := none, productId := none, userId := none, amount := none
     date := some (firstInstant 2025 7), title := "", description := ""
     price := 1, category := "a", sold := none },
   { transactionId := none, productId := none, userId := none, amount := none
     date := some (firstInstant 2025 7 + 1), title := "", description := ""
     price := 2, category := "", sold := none },
   { transactionId := none, productId := none, userId := none, amount := none
     date := some (firstInstant 2025 7 + 2), title := "", description := ""
     price := 3, category := "a", sold := none },
   { transactionId := none, productId := none, userId := none, amount := none
     date := some (firstInstant 2025 1), title := "", description := ""
     price := 4, category := "b", sold := none }]

/-- A five-record store whose titles all contain `"t"`. -/
def w4store : List Transaction :=
  [recAB, recAB, recAB, recAB, recAB].map
    (fun r => { r with title := "t1" })

/-! ## Helper lemmas -/

/-- The empty pattern matches every text. -/
theorem rSearch_nil_pattern (ts : List Char) : rSearch [] ts = true := by
  cases ts <;> simp [rSearch, pMatch]

/-- On dot-free patterns the regex head matcher is the literal head
matcher. -/
theorem pMatch_lit (ps : List Char) (h : ∀ c ∈ ps, c ≠ '.') (ts : List Char) :
    pMatch ps ts = litHere ps ts := by
  induction ps generalizing ts with
  | nil => cases ts <;> rfl
  | cons p ps ih =>
    cases ts with
    | nil => rfl
    | cons t ts =>
      have hp : (p == '.') = false := by
        simp only [beq_eq_false_iff_ne, ne_eq]
        exact h p (List.mem_cons_self p ps)
      simp [pMatch, litHere, hp, ih (fun c hc => h c (List.mem_cons_of_mem p hc))]

/-- On dot-free patterns regex search is literal substring search. -/
theorem rSearch_lit (ps : List Char) (h : ∀ c ∈ ps, c ≠ '.') (ts : List Char) :
    rSearch ps ts = subSearch ps ts := by
  induction ts with
  | nil => rfl
  | cons t ts ih => simp [rSearch, subSearch, pMatch_lit ps h, ih]

/-- The per-category document count is the count of the category value
in the list of categories. -/
theorem countP_category (rs : List Transaction) (c : String) :
    (rs.filter (fun r => r.category == c)).length
      = (rs.map (fun r => r.category)).count c := by
  induction rs with
  | nil => rfl
  | cons r rs ih =>
    by_cases h : r.category = c <;>
      simp [List.filter_cons, List.count_cons, h, ih]

/-- The keys of the `$group` output are the distinct category values of
the input. -/
theorem categoryCounts_keys (rs : List Transaction) :
    (categoryCounts rs).map Prod.fst = (rs.map (fun r => r.category)).dedup := by
  unfold categoryCounts
  rw [List.map_map]
  exact List.map_id _

/-- The `$group` counts of `/category-stats` add up to the number of
grouped documents. -/
theorem categoryCounts_sum (rs : List Transaction) :
    ((categoryCounts rs).map Prod.snd).sum = rs.length := by
  unfold categoryCounts
  rw [List.map_map]
  have hc : (Prod.snd ∘ fun c => (c, (rs.filter (fun r => r.category == c)).length))
      = fun c => (rs.filter (fun r => r.category == c)).length := rfl
  rw [hc]
  have hpt : ((rs.map (fun r => r.category)).dedup.map
        (fun c => (rs.filter (fun r => r.category == c)).length))
      = ((rs.map (fun r => r.category)).dedup.map
        (fun c => (rs.map (fun r => r.category)).count c)) :=
    List.map_congr_left (fun c _ => countP_category rs c)
  rw [hpt, List.sum_map_count_dedup_eq_length, List.length_map]

/-- For a month number in range, the handler's
`[new Date(y, m-1, 1), new Date(y, m, 1))` bounds are the first instants
of month `m` and of the following month of the two-digit-adjusted
year. -/
theorem window_eq (y m : Int) (h1 : 1 ≤ m) (h2 : m ≤ 12) :
    jsNewDateYM y (m - 1) = (specWindow (yearAdj y) m).1
      ∧ jsNewDateYM y m = (specWindow (yearAdj y) m).2 := by
  interval_cases m <;>
    exact ⟨by norm_num [jsNewDateYM, specWindow, firstInstant, Int.fdiv, Int.emod],
           by norm_num [jsNewDateYM, specWindow, firstInstant, Int.fdiv, Int.emod]⟩

/-- Disjointness of the ten bands, phrased on the integer floor and
ceiling of a price: the band indicators sum to 1 exactly when some band
holds. -/
theorem bandSumInt (f c : Int) (h1 : f ≤ c) (h2 : c ≤ f + 1) :
    (if 0 ≤ f ∧ c ≤ 100 then (1 : Nat) else 0)
      + ((if 101 ≤ f ∧ c ≤ 200 then (1 : Nat) else 0)
      + ((if 201 ≤ f ∧ c ≤ 300 then (1 : Nat) else 0)
      + ((if 301 ≤ f ∧ c ≤ 400 then (1 : Nat) else 0)
      + ((if 401 ≤ f ∧ c ≤ 500 then (1 : Nat) else 0)
      + ((if 501 ≤ f ∧ c ≤ 600 then (1 : Nat) else 0)
      + ((if 601 ≤ f ∧ c ≤ 700 then (1 : Nat) else 0)
      + ((if 701 ≤ f ∧ c ≤ 800 then (1 : Nat) else 0)
      + ((if 801 ≤ f ∧ c ≤ 900 then (1 : Nat) else 0)
      + ((if 901 ≤ f then (1 : Nat) else 0) + 0)))))))))
      = if (0 ≤ f ∧ c ≤ 100) ∨ (101 ≤ f ∧ c ≤ 200) ∨ (201 ≤ f ∧ c ≤ 300)
          ∨ (301 ≤ f ∧ c ≤ 400) ∨ (401 ≤ f ∧ c ≤ 500) ∨ (501 ≤ f ∧ c ≤ 600)
          ∨ (601 ≤ f ∧ c ≤ 700) ∨ (701 ≤ f ∧ c ≤ 800) ∨ (801 ≤ f ∧ c ≤ 900)
          ∨ (901 ≤ f) then 1 else 0 := by
  by_cases k1 : 0 ≤ f ∧ c ≤ 100
  · have n2 : ¬(101 ≤ f ∧ c ≤ 200) := by omega
    have n3 : ¬(201 ≤ f ∧ c ≤ 300) := by omega
    have n4 : ¬(301 ≤ f ∧ c ≤ 400) := by omega
    have n5 : ¬(401 ≤ f ∧ c ≤ 500) := by omega
    have n6 : ¬(501 ≤ f ∧ c ≤ 600) := by omega
    have n7 : ¬(601 ≤ f ∧ c ≤ 700) := by omega
    have n8 : ¬(701 ≤ f ∧ c ≤ 800) := by omega
    have n9 : ¬(801 ≤ f ∧ c ≤ 900) := by omega
    have n10 : ¬(901 ≤ f) := by omega
    simp [k1, n2, n3, n4, n5, n6, n7, n8, n9, n10]
  by_cases k2 : 101 ≤ f ∧ c ≤ 200
  · have n3 : ¬(201 ≤ f ∧ c ≤ 300) := by omega
    have n4 : ¬(301 ≤ f ∧ c ≤ 400) := by omega
    have n5 : ¬(401 ≤ f ∧ c ≤ 500) := by omega
    have n6 : ¬(501 ≤ f ∧ c ≤ 600) := by omega
    have n7 : ¬(601 ≤ f ∧ c ≤ 700) := by omega
    have n8 : ¬(701 ≤ f ∧ c ≤ 800) := by omega
    have n9 : ¬(801 ≤ f ∧ c ≤ 900) := by omega
    have n10 : ¬(901 ≤ f) := by omega
    simp [k1, k2, n3, n4, n5, n6, n7, n8, n9, n10]
  by_cases k3 : 201 ≤ f ∧ c ≤ 300
  · have n4 : ¬(301 ≤ f ∧ c ≤ 400) := by omega
    have n5 : ¬(401 ≤ f ∧ c ≤ 500) := by omega
    have n6 : ¬(501 ≤ f ∧ c ≤ 600) := by omega
    have n7 : ¬(601 ≤ f ∧ c ≤ 700) := by omega
    have n8 : ¬(701 ≤ f ∧ c ≤ 800) := by omega
    have n9 : ¬(801 ≤ f ∧ c ≤ 900) := by omega
    have n10 : ¬(901 ≤ f) := by omega
    simp [k1, k2, k3, n4, n5, n6, n7, n8, n9, n10]
  by_cases k4 : 301 ≤ f ∧ c ≤ 400
  · have n5 : ¬(401 ≤ f ∧ c ≤ 500) := by omega
    have n6 : ¬(501 ≤ f ∧ c ≤ 600) := by omega
    have n7 : ¬(601 ≤ f ∧ c ≤ 700) := by omega
    have n8 : ¬(701 ≤ f ∧ c ≤ 800) := by omega
    have n9 : ¬(801 ≤ f ∧ c ≤ 900) := by omega
    have n10 : ¬(901 ≤ f) := by omega
    simp [k1, k2, k3, k4, n5, n6, n7, n8, n9, n10]
  by_cases k5 : 401 ≤ f ∧ c ≤ 500
  · have n6 : ¬(501 ≤ f ∧ c ≤ 600) := by omega
    have n7 : ¬(601 ≤ f ∧ c ≤ 700) := by omega
    have n8 : ¬(701 ≤ f ∧ c ≤ 800) := by omega
    have n9 : ¬(801 ≤ f ∧ c ≤ 900) := by omega
    have n10 : ¬(901 ≤ f) := by omega
    simp [k1, k2, k3, k4, k5, n6, n7, n8, n9, n10]
  by_cases k6 : 501 ≤ f ∧ c ≤ 600
  · have n7 : ¬(601 ≤ f ∧ c ≤ 700) := by omega
    have n8 : ¬(701 ≤ f ∧ c ≤ 800) := by omega
    have n9 : ¬(801 ≤ f ∧ c ≤ 900) := by omega
    have n10 : ¬(901 ≤ f) := by omega
    simp [k1, k2, k3, k4, k5, k6, n7, n8, n9, n10]
  by_cases k7 : 601 ≤ f ∧ c ≤ 700
  · have n8 : ¬(701 ≤ f ∧ c ≤ 800) := by omega
    have n9 : ¬(801 ≤ f ∧ c ≤ 900) := by omega
    have n10 : ¬(901 ≤ f) := by omega
    simp [k1, k2, k3, k4, k5, k6, k7, n8, n9, n10]
  by_cases k8 : 701 ≤ f ∧ c ≤ 800
  · have n9 : ¬(801 ≤ f ∧ c ≤ 900) := by omega
    have n10 : ¬(901 ≤ f) := by omega
    simp [k1, k2, k3, k4, k5, k6, k7, k8, n9, n10]
  by_cases k9 : 801 ≤ f ∧ c ≤ 900
  · have n10 : ¬(901 ≤ f) := by omega
    simp [k1, k2, k3, k4, k5, k6, k7, k8, k9, n10]
  by_cases k10 : 901 ≤ f
  · simp [k1, k2, k3, k4, k5, k6, k7, k8, k9, k10]
  · simp [k1, k2, k3, k4, k5, k6, k7, k8, k9, k10]

/-- A price lies in at most one of the ten bands: the band indicators
sum to 1 exactly when some band contains the price. -/
theorem band_indicator (p : ℚ) :
    (priceRanges.map (fun b => if priceInBand p b then (1 : Nat) else 0)).sum
      = if priceRanges.any (fun b => priceInBand p b) then 1 else 0 := by
  have hfc : (⌈p⌉ : ℤ) ≤ ⌊p⌋ + 1 := Int.ceil_le_floor_add_one p
  have hcf : (⌊p⌋ : ℤ) ≤ ⌈p⌉ := Int.floor_le_ceil p
  have a0 : ((0 : ℚ) ≤ p) ↔ (0 ≤ ⌊p⌋) := by rw [Int.le_floor]; norm_num
  have a101 : ((101 : ℚ) ≤ p) ↔ (101 ≤ ⌊p⌋) := by rw [Int.le_floor]; norm_num
  have a201 : ((201 : ℚ) ≤ p) ↔ (201 ≤ ⌊p⌋) := by rw [Int.le_floor]; norm_num
  have a301 : ((301 : ℚ) ≤ p) ↔ (301 ≤ ⌊p⌋) := by rw [Int.le_floor]; norm_num
  have a401 : ((401 : ℚ) ≤ p) ↔ (401 ≤ ⌊p⌋) := by rw [Int.le_floor]; norm_num
  have a501 : ((501 : ℚ) ≤ p) ↔ (501 ≤ ⌊p⌋) := by rw [Int.le_floor]; norm_num
  have a601 : ((601 : ℚ) ≤ p) ↔ (601 ≤ ⌊p⌋) := by rw [Int.le_floor]; norm_num
  have a701 : ((701 : ℚ) ≤ p) ↔ (701 ≤ ⌊p⌋) := by rw [Int.le_floor]; norm_num
  have a801 : ((801 : ℚ) ≤ p) ↔ (801 ≤ ⌊p⌋) := by rw [Int.le_floor]; norm_num
  have a901 : ((901 : ℚ) ≤ p) ↔ (901 ≤ ⌊p⌋) := by rw [Int.le_floor]; norm_num
  have b100 : (p ≤ (100 : ℚ)) ↔ (⌈p⌉ ≤ 100) := by rw [Int.ceil_le]; norm_num
  have b200 : (p ≤ (200 : ℚ)) ↔ (⌈p⌉ ≤ 200) := by rw [Int.ceil_le]; norm_num
  have b300 : (p ≤ (300 : ℚ)) ↔ (⌈p⌉ ≤ 300) := by rw [Int.ceil_le]; norm_num
  have b400 : (p ≤ (400 : ℚ)) ↔ (⌈p⌉ ≤ 400) := by rw [Int.ceil_le]; norm_num
  have b500 : (p ≤ (500 : ℚ)) ↔ (⌈p⌉ ≤ 500) := by rw [Int.ceil_le]; norm_num
  have b600 : (p ≤ (600 : ℚ)) ↔ (⌈p⌉ ≤ 600) := by rw [Int.ceil_le]; norm_num
  have b700 : (p ≤ (700 : ℚ)) ↔ (⌈p⌉ ≤ 700) := by rw [Int.ceil_le]; norm_num
  have b800 : (p ≤ (800 : ℚ)) ↔ (⌈p⌉ ≤ 800) := by rw [Int.ceil_le]; norm_num
  have b900 : (p ≤ (900 : ℚ)) ↔ (⌈p⌉ ≤ 900) := by rw [Int.ceil_le]; norm_num
  simp only [priceRanges, priceInBand, List.map_cons, List.map_nil, List.sum_cons,
    List.sum_nil, List.any_cons, List.any_nil, Bool.or_eq_true, Bool.and_eq_true,
    decide_eq_true_eq, and_true, Bool.false_eq_true, or_false]
  simp only [a0, a101, a201, a301, a401, a501, a601, a701, a801, a901,
    b100, b200, b300, b400, b500, b600, b700, b800, b900]
  exact bandSumInt (⌊p⌋) (⌈p⌉) hcf hfc

/-- The ten per-band `countDocuments` results add up to the number of
in-window records whose price lies in some band. -/
theorem range_sum_eq (s e : Int) (rs : List Transaction) :
    (priceRanges.map (fun b =>
        (rs.filter (fun r => dateIn s e r && priceInBand r.price b)).length)).sum
      = (rs.filter (fun r =>
          dateIn s e r && priceRanges.any (fun b => priceInBand r.price b))).length := by
  induction rs with
  | nil => simp
  | cons r rs ih =>
    by_cases hd : dateIn s e r
    · have hmap : (priceRanges.map (fun b =>
          ((r :: rs).filter (fun x => dateIn s e x && priceInBand x.price b)).length))
          = priceRanges.map (fun b =>
            (if priceInBand r.price b then (1 : Nat) else 0)
              + (rs.filter (fun x => dateIn s e x && priceInBand x.price b)).length) := by
        refine List.map_congr_left (fun b _ => ?_)
        rw [List.filter_cons]
        by_cases hb : priceInBand r.price b <;> simp [hd, hb, Nat.add_comm]
      rw [hmap, List.sum_map_add, band_indicator, ih, List.filter_cons]
      by_cases ha : priceRanges.any (fun b => priceInBand r.price b) <;>
        simp [hd, ha, Nat.add_comm]
    · have hmap : (priceRanges.map (fun b =>
          ((r :: rs).filter (fun x => dateIn s e x && priceInBand x.price b)).length))
          = priceRanges.map (fun b =>
            (rs.filter (fun x => dateIn s e x && priceInBand x.price b)).length) := by
        refine List.map_congr_left (fun b _ => ?_)
        rw [List.filter_cons]
        simp [hd]
      rw [hmap, ih, List.filter_cons]
      simp [hd]

/-! ## The claims -/

/-- Claim C2: if the upstream source returns a JSON payload that is not
an array, `/initialize` responds with status 400 and the stored
collection is left completely unchanged (neither the delete-all nor the
bulk insert is executed). -/
theorem claim_C2 (s : List Transaction) :
    initializeHandler .notArray s = (.badRequest, s)
      ∧ (initializeHandler .notArray s).1.status = 400 :=
  ⟨rfl, rfl⟩

/-- Claim C3: after a successful `/initialize` over an upstream array of
N records of which K have parseable dates, the store contains exactly
those K normalized records (in order) and no record with a null or
invalid date; each stored record has `title`, `description` and
`category` defaulted to the empty string and `price` defaulted to 0 when
the corresponding source field is absent. -/
theorem claim_C3 (items : List RawItem) (s : List Transaction) :
    (initializeHandler (.array items) s).1 = InitResponse.ok
      ∧ (initializeHandler (.array items) s).2
          = (items.filter (fun i => (parseDate i.date).isSome)).map normalizeItem
      ∧ (∀ r ∈ (initializeHandler (.array items) s).2, r.date ≠ none)
      ∧ (initializeHandler (.array items) s).2.length
          = items.countP (fun i => (parseDate i.date).isSome)
      ∧ (∀ i : RawItem,
          (i.title = none → (normalizeItem i).title = "")
          ∧ (i.description = none → (normalizeItem i).description = "")
          ∧ (i.category = none → (normalizeItem i).category = "")
          ∧ (i.price = none → (normalizeItem i).price = 0)) := by
  have hmapfilter : (initializeHandler (.array items) s).2
      = (items.filter (fun i => (parseDate i.date).isSome)).map normalizeItem := by
    show (items.map normalizeItem).filter (fun t => t.date.isSome)
        = (items.filter (fun i => (parseDate i.date).isSome)).map normalizeItem
    exact List.filter_map normalizeItem items
  refine ⟨rfl, hmapfilter, ?_, ?_, ?_⟩
  · intro r hr
    rw [hmapfilter] at hr
    obtain ⟨i, hi, rfl⟩ := List.mem_map.mp hr
    have : (parseDate i.date).isSome := (List.mem_filter.mp hi).2
    simpa [normalizeItem, Option.isSome_iff_ne_none] using this
  · rw [hmapfilter, List.length_map, ← List.countP_eq_length_filter]
  · intro i
    exact ⟨fun h => by simp [normalizeItem, h], fun h => by simp [normalizeItem, h],
      fun h => by simp [normalizeItem, h], fun h => by simp [normalizeItem, h]⟩

/-- Witness for claim C3 at a concrete two-element payload: exactly the
record with the parseable date survives, and the absent title of the
other item would have defaulted to the empty string. -/
theorem claim_C3_witness :
    (initializeHandler (.array w3items) []).2.length = 1
      ∧ (normalizeItem w3item2).title = "" := by
  have h := claim_C3 w3items []
  exact ⟨h.2.2.2.1.trans (by decide), (h.2.2.2.2 w3item2).1 rfl⟩

/-- Claim C4: for every page ≥ 1 and perPage ≥ 1, `/transactions`
returns at most perPage records (skipping `(page-1)*perPage` matches),
`totalCount` equals the count of all matches ignoring pagination, and
`totalPages` equals `ceil(totalCount / perPage)`. -/
theorem claim_C4 (page perPage search : Option String) (store : List Transaction)
    (p pp : Int) (hp : optParamInt page 1 = some p)
    (hpp : optParamInt perPage 10 = some pp) (h1 : 1 ≤ p) (h2 : 1 ≤ pp) :
    ∃ out, transactionsHandler page perPage search store = .ok out
      ∧ (out.transactions.length : Int) ≤ pp
      ∧ out.transactions
          = ((store.filter (txMatches (search.getD ""))).drop
              ((p - 1) * pp).toNat).take pp.toNat
      ∧ out.totalCount = (store.filter (txMatches (search.getD ""))).length
      ∧ out.totalPages = Int.ceil ((out.totalCount : ℚ) / (pp : ℚ)) := by
  have hskip : ¬((p - 1) * pp < 0) := by
    have := mul_nonneg (by omega : (0 : Int) ≤ p - 1) (by omega : (0 : Int) ≤ pp)
    omega
  have habs : pp.natAbs = pp.toNat := by omega
  have hppz : ¬(pp = 0) := by omega
  simp only [transactionsHandler, hp, hpp, mongoLimit, habs]
  rw [if_neg hskip, if_neg hppz]
  refine ⟨_, rfl, ?_, rfl, rfl, rfl⟩
  show ((((store.filter (txMatches (search.getD ""))).drop
      ((p - 1) * pp).toNat).take pp.toNat).length : Int) ≤ pp
  have h3 := List.length_take_le pp.toNat
    ((store.filter (txMatches (search.getD ""))).drop ((p - 1) * pp).toNat)
  omega

/-- Witness for claim C4 at `page=2`, `perPage=3` over a five-record
store with empty search. -/
theorem claim_C4_witness :
    ∃ out, transactionsHandler (some "2") (some "3") none w4store = .ok out
      ∧ (out.transactions.length : Int) ≤ 3
      ∧ out.transactions
          = ((w4store.filter (txMatches (Option.getD none ""))).drop
              (((2 : Int) - 1) * 3).toNat).take (3 : Int).toNat
      ∧ out.totalCount = (w4store.filter (txMatches (Option.getD none ""))).length
      ∧ out.totalPages = Int.ceil ((out.totalCount : ℚ) / ((3 : Int) : ℚ)) :=
  claim_C4 (some "2") (some "3") none w4store 2 3 (by decide) (by decide)
    (by decide) (by decide)

/-- Claim C5, counterexample: the search string is used as a regular
expression, not as a literal substring.  The pattern `"."` matches the
record titled `"ab"` although `"ab"` does not contain the substring
`"."` (and `"."` does not parse as a number). -/
theorem claim_C5_counterexample :
    txMatches "." recAB = true ∧ specSearchMatches "." recAB = false := by
  decide

/-- Claim C5 as amended: the `/transactions` filter matches exactly the
records whose title or description case-insensitively matches the search
string interpreted as an (unanchored) regular expression, or, when the
search string parses as a finite number, whose price equals that number
exactly; on search strings free of regex metacharacters the regex
interpretation coincides with case-insensitive substring containment,
and the empty search matches every record. -/
theorem claim_C5_amended (s : String) (r : Transaction) :
    txMatches "" r = true
      ∧ (regexLiteral s → txMatches s r = specSearchMatches s r) := by
  constructor
  · have h1 : jsRegexTestCI "" r.title = true := rSearch_nil_pattern r.title.data
    simp [txMatches, h1]
  · intro hlit
    have hdot : ∀ c ∈ s.data, c ≠ '.' := by
      intro c hc he
      exact hlit c hc (he ▸ (by decide : ('.' : Char) ∈ metaChars))
    show (jsRegexTestCI s r.title || jsRegexTestCI s r.description || _)
        = (containsCI r.title s || containsCI r.description s || _)
    unfold jsRegexTestCI containsCI
    rw [rSearch_lit s.data hdot r.title.data, rSearch_lit s.data hdot r.description.data]

/-- Witness for claim C5 at the metacharacter-free search `"ab"` and a
record titled `"xABz"`: the code's filter and the substring reading
agree (and the empty search matches the record). -/
theorem claim_C5_witness :
    txMatches "" recXAB = true
      ∧ txMatches "ab" recXAB = specSearchMatches "ab" recXAB :=
  ⟨(claim_C5_amended "ab" recXAB).1, (claim_C5_amended "ab" recXAB).2 (by decide)⟩

/-- Claim C1, counterexample: for a store holding one May-2024 record
priced 100.5 — inside `[0, ∞)` but in the gap between the bands
`[0,100]` and `[101,200]` — the band counts of `/price-range?month=5`
sum to 0 while one in-window record has price in `[0, ∞)`. -/
theorem claim_C1_counterexample :
    rangeSum (priceRangeHandler (some "5") 2024 [rGap])
      ≠ ([rGap].filter (fun r =>
          dateIn (jsNewDateYM 2024 4) (jsNewDateYM 2024 5) r
            && decide ((0 : ℚ) ≤ r.price))).length := by
  decide

/-- Claim C1 as amended: for every valid month, `/price-range` returns
exactly ten `{range, count}` entries in the fixed band order `[0,100]`,
`[101,200]`, …, `[901,∞)`, each band counted with bounds inclusive at
both ends, and the sum of the ten counts equals the number of records
whose date lies in the current-year month window and whose price lies in
one of the ten bands (prices falling in the unit gaps between
consecutive bands are counted by no band). -/
theorem claim_C1_amended (month : Option String) (cy : Int)
    (store : List Transaction) (m : Int) (hm : parseIntOpt month = some m)
    (h1 : 1 ≤ m) (h2 : m ≤ 12) :
    ∃ l, priceRangeHandler month cy store = .ok l
      ∧ l.map (fun rc => (rc.lo, rc.hi))
          = [((0 : ℚ), some (100 : ℚ)), (101, some 200), (201, some 300),
             (301, some 400), (401, some 500), (501, some 600), (601, some 700),
             (701, some 800), (801, some 900), (901, none)]
      ∧ l.length = 10
      ∧ (l.map RangeCount.count).sum
          = (store.filter (fun r =>
              dateIn (jsNewDateYM cy (m - 1)) (jsNewDateYM cy m) r
                && priceRanges.any (fun b => priceInBand r.price b))).length := by
  simp only [priceRangeHandler, hm]
  rw [if_neg (by omega)]
  refine ⟨_, rfl, by rfl, by rfl, ?_⟩
  rw [List.map_map]
  exact range_sum_eq (jsNewDateYM cy (m - 1)) (jsNewDateYM cy m) store

/-- Witness for claim C1 at month 5, current year 2024, over the
singleton store holding the gap-priced record. -/
theorem claim_C1_witness :
    ∃ l, priceRangeHandler (some "5") 2024 [rGap] = .ok l
      ∧ l.map (fun rc => (rc.lo, rc.hi))
          = [((0 : ℚ), some (100 : ℚ)), (101, some 200), (201, some 300),
             (301, some 400), (401, some 500), (501, some 600), (601, some 700),
             (701, some 800), (801, some 900), (901, none)]
      ∧ l.length = 10
      ∧ (l.map RangeCount.count).sum
          = ([rGap].filter (fun r =>
              dateIn (jsNewDateYM 2024 ((5 : Int) - 1)) (jsNewDateYM 2024 5) r
                && priceRanges.any (fun b => priceInBand r.price b))).length :=
  claim_C1_amended (some "5") 2024 [rGap] 5 (by decide) (by decide) (by decide)

/-- Claim C6, counterexample: `/statistics?month=1&year=24` does not
aggregate over the records dated in January of year 24, because the
`Date(year, month, day)` constructor maps year values 0–99 to
1900–1999: the single stored record dated in year 24 with amount 5 is
reported with `totalSaleAmount` 0. -/
theorem claim_C6_counterexample :
    statsSale (statisticsHandler (some "1") (some "24") [rY24])
      ≠ (([rY24].filter (dateIn (firstInstant 24 1) (firstInstant 24 2))).map
          (fun r => r.amount.getD 0)).sum := by
  intro h
  have hL : statsSale (statisticsHandler (some "1") (some "24") [rY24]) = 0 := by
    decide
  have hf : ([rY24].filter (dateIn (firstInstant 24 1) (firstInstant 24 2)))
      = [rY24] := by decide
  have hR : (([rY24].filter (dateIn (firstInstant 24 1) (firstInstant 24 2))).map
      (fun r => r.amount.getD 0)).sum = 5 := by
    rw [hf]; simp [rY24]
  rw [hL, hR] at h
  norm_num at h

/-- Claim C6 as amended: for every valid month (1–12) and integer year,
with year values 0–99 interpreted as 1900–1999 (the ECMAScript
two-digit-year rule of the `Date` constructor), `/statistics` computes
over exactly the records with date in `[first instant of that
(interpreted) month, first instant of the next month)`:
`totalSaleAmount` is the sum of `amount` over all matched records (0
when no record matches), `totalSoldItems` is the count of matched
records with `sold == true`, and `totalNotSoldItems` is the count of
matched records with `sold == false`. -/
theorem claim_C6_amended (month year : Option String) (store : List Transaction)
    (m y : Int) (hm : parseIntOpt month = some m) (hy : parseIntOpt year = some y)
    (h1 : 1 ≤ m) (h2 : m ≤ 12) :
    ∃ o, statisticsHandler month year store = .ok o
      ∧ o.totalSaleAmount
          = ((store.filter (dateIn (specWindow (yearAdj y) m).1
              (specWindow (yearAdj y) m).2)).map (fun r => r.amount.getD 0)).sum
      ∧ o.totalSoldItems
          = ((store.filter (dateIn (specWindow (yearAdj y) m).1
              (specWindow (yearAdj y) m).2)).filter
                (fun r => r.sold == some true)).length
      ∧ o.totalNotSoldItems
          = ((store.filter (dateIn (specWindow (yearAdj y) m).1
              (specWindow (yearAdj y) m).2)).filter
                (fun r => r.sold == some false)).length := by
  obtain ⟨hw1, hw2⟩ := window_eq y m h1 h2
  simp only [statisticsHandler, hm, hy]
  rw [if_neg (by omega), hw1, hw2]
  exact ⟨_, rfl, rfl, rfl, rfl⟩

/-- Witness for claim C6 at month 3, year 2024, over the empty store. -/
theorem claim_C6_witness :
    ∃ o, statisticsHandler (some "3") (some "2024") [] = .ok o
      ∧ o.totalSaleAmount
          = (([] : List Transaction).filter (dateIn (specWindow (yearAdj 2024) 3).1
              (specWindow (yearAdj 2024) 3).2) |>.map (fun r => r.amount.getD 0)).sum
      ∧ o.totalSoldItems
          = ((([] : List Transaction).filter (dateIn (specWindow (yearAdj 2024) 3).1
              (specWindow (yearAdj 2024) 3).2)).filter
                (fun r => r.sold == some true)).length
      ∧ o.totalNotSoldItems
          = ((([] : List Transaction).filter (dateIn (specWindow (yearAdj 2024) 3).1
              (specWindow (yearAdj 2024) 3).2)).filter
                (fun r => r.sold == some false)).length :=
  claim_C6_amended (some "3") (some "2024") [] 3 2024 (by decide) (by decide)
    (by decide) (by decide)

/-- Claim C7: for every valid month (1–12), `/category-stats` returns
exactly one `{category, count}` entry per distinct category value
(including the empty string) among records whose date lies in the
current-year month window, and the sum of all count values equals the
total number of matched records. -/
theorem claim_C7 (month : Option String) (cy : Int) (store : List Transaction)
    (m : Int) (hm : parseIntOpt month = some m) (h1 : 1 ≤ m) (h2 : m ≤ 12) :
    ∃ l, categoryStatsHandler month cy store = .ok l
      ∧ (l.map Prod.fst).Nodup
      ∧ (∀ c : String, c ∈ l.map Prod.fst
          ↔ c ∈ (store.filter (dateIn (jsNewDateYM cy (m - 1))
              (jsNewDateYM cy m))).map (fun r => r.category))
      ∧ (l.map Prod.snd).sum
          = (store.filter (dateIn (jsNewDateYM cy (m - 1)) (jsNewDateYM cy m))).length := by
  simp only [categoryStatsHandler, hm]
  rw [if_neg (by omega)]
  refine ⟨_, rfl, ?_, ?_, categoryCounts_sum _⟩
  · rw [categoryCounts_keys]
    exact List.nodup_dedup _
  · intro c
    rw [categoryCounts_keys]
    exact List.mem_dedup

/-- Witness for claim C7 at month 7, current year 2025, over a store
with two distinct in-window categories. -/
theorem claim_C7_witness :
    ∃ l, categoryStatsHandler (some "7") 2025 w7store = .ok l
      ∧ (l.map Prod.fst).Nodup
      ∧ (∀ c : String, c ∈ l.map Prod.fst
          ↔ c ∈ (w7store.filter (dateIn (jsNewDateYM 2025 ((7 : Int) - 1))
              (jsNewDateYM 2025 7))).map (fun r => r.category))
      ∧ (l.map Prod.snd).sum
          = (w7store.filter (dateIn (jsNewDateYM 2025 ((7 : Int) - 1))
              (jsNewDateYM 2025 7))).length :=
  claim_C7 (some "7") 2025 w7store 7 (by decide) (by decide) (by decide)

/-- Claim C8: `/transactions` rejects the request with a 400
`InvalidParameterError` response exactly when the supplied `page` or
`perPage` parameter does not parse as an integer (absent parameters take
the defaults 1 and 10), and otherwise proceeds to query the store: the
store rejects a negative skip value `(page-1)*perPage`, which the
handler reports as a 500, and answers the query otherwise. -/
theorem claim_C8 (page perPage search : Option String) (store : List Transaction) :
    ((transactionsHandler page perPage search store).status = 400
        ↔ optParamInt page 1 = none ∨ optParamInt perPage 10 = none)
      ∧ (∀ p pp : Int, optParamInt page 1 = some p → optParamInt perPage 10 = some pp →
          ((p - 1) * pp < 0 →
              transactionsHandler page perPage search store = TxResponse.serverError)
            ∧ (0 ≤ (p - 1) * pp →
                ∃ o, transactionsHandler page perPage search store = TxResponse.ok o
                  ∧ o.totalCount = (store.filter (txMatches (search.getD ""))).length)) := by
  constructor
  · cases hp : optParamInt page 1 with
    | none =>
        cases hpp : optParamInt perPage 10 <;>
          simp [transactionsHandler, hp, hpp, TxResponse.status]
    | some p =>
        cases hpp : optParamInt perPage 10 with
        | none => simp [transactionsHandler, hp, hpp, TxResponse.status]
        | some pp =>
            simp only [transactionsHandler, hp, hpp]
            split <;> simp [TxResponse.status]
  · intro p pp hp hpp
    constructor
    · intro hneg
      simp only [transactionsHandler, hp, hpp]
      rw [if_pos hneg]
    · intro hpos
      simp only [transactionsHandler, hp, hpp]
      rw [if_neg (by omega)]
      exact ⟨_, rfl, rfl⟩

/-- Witness for claim C8: a non-numeric `page` is rejected with 400;
`page=0` produces the negative skip `-2`, which the store rejects (500);
and `page=1` reaches the store query and returns its counts. -/
theorem claim_C8_witness :
    ((transactionsHandler (some "x") (some "2") none []).status = 400
        ↔ optParamInt (some "x") 1 = none ∨ optParamInt (some "2") 10 = none)
      ∧ transactionsHandler (some "0") (some "2") none [] = TxResponse.serverError
      ∧ (∃ o, transactionsHandler (some "1") (some "2") none [] = TxResponse.ok o
          ∧ o.totalCount = (([] : List Transaction).filter
              (txMatches (Option.getD none ""))).length) :=
  ⟨(claim_C8 (some "x") (some "2") none []).1,
   ((claim_C8 (some "0") (some "2") none []).2 0 2 (by decide) (by decide)).1 (by decide),
   ((claim_C8 (some "1") (some "2") none []).2 1 2 (by decide) (by decide)).2 (by decide)⟩

/-- Claim C9: for every request to `/statistics`, `/price-range` or
`/category-stats` whose month parameter is not an integer or lies
outside 1–12 (or, for `/statistics`, whose year is not an integer), the
endpoint responds 400 (for every store, so no store query influences the
response, and the handlers never mutate the store). -/
theorem claim_C9 (month year : Option String) (cy : Int) (store : List Transaction) :
    (monthOk month = false →
      statisticsHandler month year store = .badRequest
        ∧ priceRangeHandler month cy store = .badRequest
        ∧ categoryStatsHandler month cy store = .badRequest)
      ∧ (parseIntOpt year = none → statisticsHandler month year store = .badRequest) := by
  constructor
  · intro h
    cases hm : parseIntOpt month with
    | none =>
        cases hy : parseIntOpt year <;>
          simp [statisticsHandler, priceRangeHandler, categoryStatsHandler, hm, hy]
    | some m =>
        have hbad : m < 1 ∨ 12 < m := by
          simpa [monthOk, hm, Decidable.or_iff_not_imp_left] using h
        cases hy : parseIntOpt year <;>
          simp [statisticsHandler, priceRangeHandler, categoryStatsHandler,
            hm, hy, hbad]
  · intro hy
    cases hm : parseIntOpt month <;> simp [statisticsHandler, hm, hy]

/-- Witness for claim C9 at `month=13` (out of range) and at a missing
year for `/statistics`. -/
theorem claim_C9_witness :
    (statisticsHandler (some "13") (some "2024") [] = .badRequest
        ∧ priceRangeHandler (some "13") 2024 [] = .badRequest
        ∧ categoryStatsHandler (some "13") 2024 [] = .badRequest)
      ∧ statisticsHandler (some "5") none [] = .badRequest :=
  ⟨(claim_C9 (some "13") (some "2024") 2024 []).1 (by decide),
   (claim_C9 (some "5") none 2024 []).2 (by decide)⟩

/-- Claim C10: no record created by the ingest mapping carries a `sold`
value, so for any store populated solely by `/initialize`, every
successful `/statistics` response reports `totalSoldItems = 0` and
`totalNotSoldItems = 0` regardless of month and year. -/
theorem claim_C10 (items : List RawItem) (s0 : List Transaction) :
    (∀ r ∈ (initializeHandler (.array items) s0).2, r.sold = none)
      ∧ (∀ (month year : Option String) (o : StatsOutput),
          statisticsHandler month year ((initializeHandler (.array items) s0).2) = .ok o →
          o.totalSoldItems = 0 ∧ o.totalNotSoldItems = 0) := by
  have hsold : ∀ r ∈ (initializeHandler (.array items) s0).2, r.sold = none := by
    intro r hr
    have hr' : r ∈ (items.map normalizeItem).filter (fun t => t.date.isSome) := hr
    obtain ⟨i, hi, rfl⟩ := List.mem_map.mp (List.mem_filter.mp hr').1
    rfl
  refine ⟨hsold, ?_⟩
  intro month year o h
  unfold statisticsHandler at h
  split at h
  · split at h
    · cases h
    · obtain rfl := (StatsResponse.ok.injEq _ _).mp h
      constructor
      · show (List.filter (fun r : Transaction => r.sold == some true) _).length = 0
        rw [← List.countP_eq_length_filter]
        refine List.countP_eq_zero.mpr (fun r hr => ?_)
        have : r.sold = none := hsold r (List.mem_filter.mp hr).1
        simp [this]
      · show (List.filter (fun r : Transaction => r.sold == some false) _).length = 0
        rw [← List.countP_eq_length_filter]
        refine List.countP_eq_zero.mpr (fun r hr => ?_)
        have : r.sold = none := hsold r (List.mem_filter.mp hr).1
        simp [this]
  · cases h

/-- Witness for claim C10: a store ingested from one January-2024 item
and queried for February 2024. -/
theorem claim_C10_witness :
    (normalizeItem w10item).sold = none
      ∧ ((⟨0, 0, 0⟩ : StatsOutput).totalSoldItems = 0
          ∧ (⟨0, 0, 0⟩ : StatsOutput).totalNotSoldItems = 0) := by
  have h := claim_C10 [w10item] []
  exact ⟨h.1 (normalizeItem w10item) (by decide),
    h.2 (some "2") (some "2024") ⟨0, 0, 0⟩ (by decide)⟩

end Server
